import Mathlib

/-!
Shallow embedding of the MASL renal-cell-carcinoma simulation (Python/mesa)
and proofs about its agent rules, population controller, survival oracle and
construction behaviour.

Conventions of the embedding:
* Python floats are modelled as exact rationals (`ℚ`).  The numeric claims
  settled here are robust to floating-point rounding (all comparisons hold
  with wide margins at the chosen inputs).
* Python `int(x)` (truncation toward zero) is `pyInt`; Python float
  floor-division `//` is `Int.floor`.
* Random draws are explicit inputs: a call of `random.random()` becomes a
  rational argument (or, where only the outcome of the comparison against a
  positive probability matters, a boolean argument), and `random.choice`
  becomes an index argument.  Every outcome supplied in a theorem is a
  possible outcome of the corresponding draw.
* Grid positions are pairs of integers, normalised to the rectangle
  `[0,w) × [0,h)`; mesa torus wrap-around is `%` (Euclidean, as in Python).
-/

namespace MASL

/-- Python `int()` applied to a rational: truncation toward zero
(`Rat.num` and `Rat.den` of a normalised rational, `Int.tdiv` truncates). -/
def pyInt (q : ℚ) : ℤ := q.num.tdiv q.den

theorem pyInt_eq_floor_of_nonneg (q : ℚ) (h : 0 ≤ q) : pyInt q = ⌊q⌋ := by
  have hnum : 0 ≤ q.num := Rat.num_nonneg.mpr h
  have hden : 0 ≤ (q.den : ℤ) := Int.ofNat_nonneg q.den
  rw [pyInt, Int.tdiv_eq_ediv hnum hden, Rat.floor_def]

/-! ### T cells (src/agents/T_cell.py)

A T cell carries a rational `exhaustion` and a categorical `state`.  The
per-source exhaustion increments and the ICI activation amount are fields of
the model configuration; they are passed here as explicit parameters. -/

inductive TState where
  | active
  | exhausted
deriving DecidableEq, Repr

structure TC where
  exhaustion : ℚ
  state : TState
deriving DecidableEq, Repr

namespace TC

/-- Shared tail of `TCell.attack` and `TCell.receive_attack` (T_cell.py
lines 50-55 and 66-70): cap the exhaustion at 1.0, then set the state from
the capped value (`exhausted` iff `exhaustion >= 1`, else `active`). -/
def capAndSetState (e : ℚ) : TC :=
  { exhaustion := min e 1, state := if 1 ≤ min e 1 then .exhausted else .active }

/-- Embedding of `TCell.receive_attack` (T_cell.py lines 57-70): add the
attacker-specific increment, cap at 1.0, then set the state from the new
exhaustion. -/
def receive_attack (incTReg incAndrogens : ℚ) (attacker : String) (c : TC) : TC :=
  capAndSetState
    (if attacker = "TReg" then c.exhaustion + incTReg
     else if attacker = "Androgen" then c.exhaustion + incAndrogens
     else c.exhaustion)

/-- Embedding of the exhaustion update inside `TCell.attack` (T_cell.py lines
39-55): the body runs only when some tumor cell is in the Moore neighborhood
and the cell is active; it then adds the tumor increment, caps at 1.0 and
re-evaluates the state. -/
def attack_update (incTumor : ℚ) (hasTumorNeighbor : Bool) (c : TC) : TC :=
  if hasTumorNeighbor ∧ c.state = .active then capAndSetState (c.exhaustion + incTumor)
  else c

/-- Clamp at zero, written as the source writes it (`if e < 0: e = 0`). -/
def clampBelow (e : ℚ) : ℚ := if e < 0 then 0 else e

/-- Embedding of `TCell.ICI_activation` (T_cell.py lines 92-100): subtract
the activation amount, clamp at 0, and force the state to `active` when the
resulting exhaustion is below 1.0 (otherwise the state is left unchanged). -/
def ICI_activation (amt : ℚ) (c : TC) : TC :=
  { exhaustion := clampBelow (c.exhaustion - amt),
    state := if clampBelow (c.exhaustion - amt) < 1 then .active else c.state }

/-- Embedding of the per-cell effect of `ICI._enhance_T_cells` (ICI.py lines
26-37): for an exhausted T cell, subtract 0.1 from the exhaustion and clamp
at 0; the state is not touched.  Cells that are not exhausted are left
alone. -/
def ICI_reduce (c : TC) : TC :=
  if c.state = .exhausted then
    { exhaustion := clampBelow (c.exhaustion - 1/10), state := c.state }
  else c

/-- Clamp invariant on a T cell: exhaustion lies in [0,1]. -/
def clampInv (c : TC) : Prop := 0 ≤ c.exhaustion ∧ c.exhaustion ≤ 1

/-- One-sided exhaustion/state invariant: exhaustion at the cap forces the
exhausted state. -/
def upperInv (c : TC) : Prop := 1 ≤ c.exhaustion → c.state = .exhausted

instance (c : TC) : Decidable (clampInv c) := by unfold clampInv; infer_instance

instance (c : TC) : Decidable (upperInv c) := by unfold upperInv; infer_instance

end TC

/-- Full exhaustion/state equivalence on a T cell. -/
def TC.stateEquiv (c : TC) : Prop := c.state = .exhausted ↔ 1 ≤ c.exhaustion

instance (c : TC) : Decidable (TC.stateEquiv c) := by unfold TC.stateEquiv; infer_instance

theorem capAndSetState_clampInv (e : ℚ) (h : 0 ≤ e) :
    TC.clampInv (TC.capAndSetState e) := by
  unfold TC.capAndSetState TC.clampInv
  exact ⟨le_min h zero_le_one, min_le_right _ _⟩

theorem capAndSetState_stateEquiv (e : ℚ) :
    TC.stateEquiv (TC.capAndSetState e) := by
  unfold TC.capAndSetState TC.stateEquiv
  split <;> simp_all

theorem attack_update_inv (inc : ℚ) (b : Bool) (c : TC)
    (hc : TC.clampInv c) (he : TC.stateEquiv c) (hi : 0 ≤ inc) :
    TC.clampInv (c.attack_update inc b) ∧ TC.stateEquiv (c.attack_update inc b) := by
  unfold TC.attack_update
  split
  · exact ⟨capAndSetState_clampInv _ (by linarith [hc.1]), capAndSetState_stateEquiv _⟩
  · exact ⟨hc, he⟩

theorem clampBelow_nonneg (e : ℚ) : 0 ≤ TC.clampBelow e := by
  unfold TC.clampBelow
  split <;> [exact le_refl 0; linarith]

theorem clampBelow_le (e b : ℚ) (hb : 0 ≤ b) (h : e ≤ b) : TC.clampBelow e ≤ b := by
  unfold TC.clampBelow
  split <;> [exact hb; exact h]

theorem ICI_activation_inv (amt : ℚ) (c : TC)
    (hc : TC.clampInv c) (hu : TC.upperInv c) (ha : 0 ≤ amt) :
    TC.clampInv (c.ICI_activation amt) ∧ TC.stateEquiv (c.ICI_activation amt) := by
  obtain ⟨h0, h1⟩ := hc
  unfold TC.upperInv at hu
  have hcl : TC.clampBelow (c.exhaustion - amt) ≤ 1 :=
    clampBelow_le _ _ zero_le_one (by linarith)
  unfold TC.ICI_activation TC.clampInv TC.stateEquiv
  refine ⟨⟨clampBelow_nonneg _, hcl⟩, ?_⟩
  simp only
  split <;> rename_i h
  · exact iff_of_false (by decide) (not_le.mpr h)
  · push_neg at h
    have he : TC.clampBelow (c.exhaustion - amt) = 1 := le_antisymm hcl h
    refine iff_of_true (hu ?_) (le_of_eq he.symm)
    have : c.exhaustion - amt ≤ c.exhaustion := by linarith
    have := clampBelow_le (c.exhaustion - amt) c.exhaustion h0 this
    linarith [he ▸ this]

theorem capAndSetState_active_iff (e : ℚ) :
    (TC.capAndSetState e).state = .active ↔ (TC.capAndSetState e).exhaustion < 1 := by
  unfold TC.capAndSetState
  simp only
  split <;> rename_i h
  · exact iff_of_false (by decide) (not_lt.mpr h)
  · exact iff_of_true rfl (not_le.mp h)

theorem ICI_reduce_clamp (c : TC) (hc : TC.clampInv c) :
    TC.clampInv (c.ICI_reduce) ∧ (c.ICI_reduce).state = c.state := by
  obtain ⟨h0, h1⟩ := hc
  unfold TC.ICI_reduce TC.clampInv
  split
  · exact ⟨⟨clampBelow_nonneg _, clampBelow_le _ _ zero_le_one (by linarith)⟩, rfl⟩
  · exact ⟨⟨h0, h1⟩, rfl⟩

/-- Claim C2 (amended): for nonnegative configured increments, all four
exhaustion-updating operations keep `exhaustion` in [0,1]; `attack`,
`receive_attack` and `ICI_activation` also re-establish the equivalence
`state = exhausted ↔ exhaustion ≥ 1`, but the direct ICI reduction
(`ICI._enhance_T_cells`) only preserves the clamp and leaves the state
untouched, so it can leave an exhausted cell with exhaustion below 1. -/
theorem C2_exhaustion_invariant :
    (∀ (i1 i2 : ℚ) (a : String) (c : TC), 0 ≤ c.exhaustion → 0 ≤ i1 → 0 ≤ i2 →
      TC.clampInv (c.receive_attack i1 i2 a) ∧ TC.stateEquiv (c.receive_attack i1 i2 a)) ∧
    (∀ (inc : ℚ) (b : Bool) (c : TC), TC.clampInv c → TC.stateEquiv c → 0 ≤ inc →
      TC.clampInv (c.attack_update inc b) ∧ TC.stateEquiv (c.attack_update inc b)) ∧
    (∀ (amt : ℚ) (c : TC), TC.clampInv c → TC.upperInv c → 0 ≤ amt →
      TC.clampInv (c.ICI_activation amt) ∧ TC.stateEquiv (c.ICI_activation amt)) ∧
    (∀ c : TC, TC.clampInv c →
      TC.clampInv (c.ICI_reduce) ∧ (c.ICI_reduce).state = c.state) := by
  refine ⟨?_, ?_, ?_, ?_⟩
  · intro i1 i2 a c h0 h1 h2
    unfold TC.receive_attack
    refine ⟨capAndSetState_clampInv _ ?_, capAndSetState_stateEquiv _⟩
    split <;> [linarith; skip]
    split <;> linarith
  · exact attack_update_inv
  · exact ICI_activation_inv
  · exact ICI_reduce_clamp

/-- Claim C2, witness: the amended statement applied at concrete cells and
increments. -/
theorem C2_exhaustion_invariant_witness :
    TC.clampInv (TC.receive_attack (1/10) (1/5) "TReg" ⟨1/2, .active⟩) ∧
    TC.stateEquiv (TC.receive_attack (1/10) (1/5) "TReg" ⟨1/2, .active⟩) ∧
    TC.clampInv (TC.ICI_activation (3/20) ⟨1, .exhausted⟩) ∧
    TC.stateEquiv (TC.ICI_activation (3/20) ⟨1, .exhausted⟩) := by
  have h1 := C2_exhaustion_invariant.1 (1/10) (1/5) "TReg" ⟨1/2, .active⟩
    (by norm_num) (by norm_num) (by norm_num)
  have h2 := C2_exhaustion_invariant.2.2.1 (3/20) ⟨1, .exhausted⟩
    (by constructor <;> norm_num) (by intro _; rfl) (by norm_num)
  exact ⟨h1.1, h1.2, h2.1, h2.2⟩

/-- Claim C2, counterexample: the direct ICI reduction applied to a cell at
exhaustion 1.0 (state exhausted) yields exhaustion 0.9 while the state stays
exhausted, so the claimed equivalence is not re-established by that
operation. -/
theorem C2_counterexample :
    TC.ICI_reduce ⟨1, .exhausted⟩ = ⟨9/10, .exhausted⟩ ∧
    ¬ TC.stateEquiv (TC.ICI_reduce ⟨1, .exhausted⟩) := by
  constructor
  · unfold TC.ICI_reduce TC.clampBelow
    norm_num
  · unfold TC.ICI_reduce TC.clampBelow TC.stateEquiv
    norm_num

/-- Claim C4 (amended): an exhausted T cell is never reactivated by `attack`
(whose body requires the active state) nor by the direct ICI reduction
(which never touches the state); it returns to active exactly when
`ICI_activation` or `receive_attack` leaves its exhaustion below 1.0 — so
`receive_attack` is a second reactivation path, reachable once the direct
ICI reduction has pushed the exhaustion of an exhausted cell below 1. -/
theorem C4_exhausted_reactivation :
    (∀ (inc : ℚ) (b : Bool) (c : TC), c.state = .exhausted → c.attack_update inc b = c) ∧
    (∀ c : TC, (c.ICI_reduce).state = c.state) ∧
    (∀ (i1 i2 : ℚ) (a : String) (c : TC), c.state = .exhausted →
      ((c.receive_attack i1 i2 a).state = .active ↔
        (c.receive_attack i1 i2 a).exhaustion < 1)) ∧
    (∀ (amt : ℚ) (c : TC), c.state = .exhausted →
      ((c.ICI_activation amt).state = .active ↔
        (c.ICI_activation amt).exhaustion < 1)) := by
  refine ⟨?_, ?_, ?_, ?_⟩
  · intro inc b c h
    unfold TC.attack_update
    split <;> simp_all
  · intro c
    unfold TC.ICI_reduce
    split <;> simp_all
  · intro i1 i2 a c _
    exact capAndSetState_active_iff _
  · intro amt c hc
    unfold TC.ICI_activation
    simp only
    split <;> rename_i h
    · exact iff_of_true rfl h
    · exact iff_of_false (by rw [hc]; decide) h

/-- Claim C4, witness: the amended statement applied at concrete cells. -/
theorem C4_exhausted_reactivation_witness :
    TC.attack_update (1/10) true ⟨1, .exhausted⟩ = ⟨1, .exhausted⟩ ∧
    ((TC.receive_attack (1/10) (1/10) "TReg" ⟨4/5, .exhausted⟩).state = .active ↔
      (TC.receive_attack (1/10) (1/10) "TReg" ⟨4/5, .exhausted⟩).exhaustion < 1) := by
  exact ⟨C4_exhausted_reactivation.1 (1/10) true ⟨1, .exhausted⟩ rfl,
    C4_exhausted_reactivation.2.2.1 (1/10) (1/10) "TReg" ⟨4/5, .exhausted⟩ rfl⟩

/-- Claim C4, counterexample: starting from an exhausted cell at exhaustion
1.0, two direct ICI reductions leave it exhausted at exhaustion 0.8; a TReg
attack (increment 0.1) then flips its state to active — a transition from
exhausted to active performed by `receive_attack`, not by `ICI_activation`. -/
theorem C4_counterexample :
    TC.ICI_reduce (TC.ICI_reduce ⟨1, .exhausted⟩) = ⟨4/5, .exhausted⟩ ∧
    (TC.receive_attack (1/10) (1/10) "TReg" ⟨4/5, .exhausted⟩).state = .active := by
  constructor
  · unfold TC.ICI_reduce TC.clampBelow
    norm_num
  · unfold TC.receive_attack TC.capAndSetState
    norm_num

/-! ### Grid and movement (mesa MultiGrid queries, src/agents/agents_utils.py)

The grid is the list of live agents with their (normalised) integer
coordinates.  A cell is empty when no agent occupies it.  Neighborhood
queries follow mesa: for radius `r` and Moore geometry, all cells whose
offset is within Chebyshev distance `r` (Manhattan distance for Von
Neumann), wrapped on the torus, center excluded unless requested.  The
embedding assumes grid extents of at least `2r+1`, under which wrapping
never aliases the center cell — every concrete instance below satisfies
this. -/

abbrev Pos := ℤ × ℤ

/-- Torus wrap of a coordinate pair (`%` is Euclidean in Python and Lean). -/
def wrapPos (w h : ℤ) (p : Pos) : Pos := (p.1 % w, p.2 % h)

/-- Relative offsets of a radius-`r` neighborhood, center excluded. -/
def offsets (r : ℕ) (moore : Bool) : List (ℤ × ℤ) :=
  ((List.range (2*r+1)).flatMap (fun i =>
    (List.range (2*r+1)).map (fun j => ((i : ℤ) - r, (j : ℤ) - r)))).filter
    (fun d => d ≠ (0, 0) ∧ (moore ∨ d.1.natAbs + d.2.natAbs ≤ r))

/-- Embedding of mesa `get_neighborhood` with `include_center=False`:
wrapped neighbor cells of `p`, duplicates removed. -/
def neighborhoodCells (w h : ℤ) (p : Pos) (r : ℕ) (moore : Bool) : List Pos :=
  ((offsets r moore).map (fun d => wrapPos w h (p.1 + d.1, p.2 + d.2))).dedup

inductive AgTy where
  | tumorCell
  | tCell
  | tReg
  | androgen
  | ici
deriving DecidableEq, Repr

/-- A live agent: variant tag, grid position, and the exhaustion/state pair
(meaningful for T cells; other variants keep the defaults they are
constructed with). -/
structure Ag where
  ty : AgTy
  pos : Pos
  exhaustion : ℚ
  state : TState
deriving DecidableEq, Repr

abbrev AgGrid := List Ag

/-- Embedding of mesa `is_cell_empty`: no live agent occupies the cell. -/
def isCellEmpty (g : AgGrid) (p : Pos) : Bool := g.all (fun a => a.pos != p)

/-- Embedding of mesa `get_neighbors`: all agents occupying a cell of the
requested neighborhood (center cell included on demand). -/
def getNeighbors (g : AgGrid) (w h : ℤ) (p : Pos) (r : ℕ)
    (moore includeCenter : Bool) : AgGrid :=
  let cells := if includeCenter then p :: neighborhoodCells w h p r moore
    else neighborhoodCells w h p r moore
  g.filter (fun a => cells.contains a.pos)

/-- Embedding of `manhattan_distance` (agents_utils.py lines 89-97): plain
coordinate differences, no torus wrap. -/
def manhattan_distance (p1 p2 : Pos) : ℕ := (p1.1 - p2.1).natAbs + (p1.2 - p2.2).natAbs

/-- Python `min(l, key=f)` for nonempty `l` (first minimal element), `none`
on the empty list. -/
def pyMinBy (f : α → ℕ) : List α → Option α
  | [] => none
  | x :: xs => some (xs.foldl (fun b y => if f y < f b then y else b) x)

theorem foldl_min_spec (f : α → ℕ) (xs : List α) (b : α) :
    (xs.foldl (fun b y => if f y < f b then y else b) b = b ∨
      xs.foldl (fun b y => if f y < f b then y else b) b ∈ xs) ∧
    f (xs.foldl (fun b y => if f y < f b then y else b) b) ≤ f b ∧
    ∀ y ∈ xs, f (xs.foldl (fun b y => if f y < f b then y else b) b) ≤ f y := by
  induction xs generalizing b with
  | nil => exact ⟨Or.inl rfl, le_refl _, by simp⟩
  | cons x xs ih =>
    simp only [List.foldl_cons]
    rcases ih (if f x < f b then x else b) with ⟨hmem, hle, hall⟩
    constructor
    · rcases hmem with h | h
      · rw [h]
        split <;> simp
      · exact Or.inr (List.mem_cons_of_mem _ h)
    · constructor
      · refine le_trans hle ?_
        split <;> [linarith; exact le_refl _]
      · intro y hy
        rcases List.mem_cons.mp hy with rfl | hy
        · refine le_trans hle ?_
          split <;> [exact le_refl _; linarith [not_lt.mp (by assumption)]]
        · exact hall y hy

theorem pyMinBy_eq_none_iff (f : α → ℕ) (l : List α) :
    pyMinBy f l = none ↔ l = [] := by
  cases l <;> simp [pyMinBy]

theorem pyMinBy_mem {f : α → ℕ} {l : List α} {a : α} (h : pyMinBy f l = some a) :
    a ∈ l := by
  cases l with
  | nil => simp [pyMinBy] at h
  | cons x xs =>
    simp only [pyMinBy, Option.some.injEq] at h
    rcases (foldl_min_spec f xs x).1 with h2 | h2
    · rw [← h, h2]; exact List.mem_cons_self x xs
    · rw [← h]; exact List.mem_cons_of_mem _ h2

theorem pyMinBy_min {f : α → ℕ} {l : List α} {a : α} (h : pyMinBy f l = some a) :
    ∀ y ∈ l, f a ≤ f y := by
  cases l with
  | nil => simp [pyMinBy] at h
  | cons x xs =>
    simp only [pyMinBy, Option.some.injEq] at h
    intro y hy
    obtain ⟨_, hle, hall⟩ := foldl_min_spec f xs x
    rcases List.mem_cons.mp hy with rfl | hy
    · rw [← h]; exact hle
    · rw [← h]; exact hall y hy

/-- Target agents of the requested variant found within the search radius
(agents_utils.py lines 17-27): neighbors of the current cell, center cell
excluded, filtered by variant. -/
def targetsWithin (g : AgGrid) (w h : ℤ) (current : Pos) (ty : AgTy)
    (r : ℕ) (moore : Bool) : AgGrid :=
  (getNeighbors g w h current r moore false).filter (fun a => a.ty == ty)

/-- Currently-empty immediate neighbor cells (agents_utils.py lines 53-61). -/
def emptyNeighborCells (g : AgGrid) (w h : ℤ) (current : Pos) (moore : Bool) : List Pos :=
  (neighborhoodCells w h current 1 moore).filter (fun q => isCellEmpty g q)

/-- Embedding of `calculate_best_move_towards` (agents_utils.py lines 43-70):
the empty immediate neighbor cell minimizing Manhattan distance to the
target, `none` when no neighbor cell is empty. -/
def calculate_best_move_towards (g : AgGrid) (w h : ℤ) (current target : Pos)
    (moore : Bool) : Option Pos :=
  pyMinBy (fun q => manhattan_distance q target) (emptyNeighborCells g w h current moore)

/-- Embedding of `find_and_move_towards_agent_type` (agents_utils.py lines
6-41): find the Manhattan-closest target of the variant within the search
radius; `none` if there is none or it is at Manhattan distance 1; otherwise
delegate to `calculate_best_move_towards`. -/
def find_and_move_towards_agent_type (g : AgGrid) (w h : ℤ) (current : Pos)
    (ty : AgTy) (r : ℕ) (moore : Bool) : Option Pos :=
  match pyMinBy (fun a => manhattan_distance current a.pos)
      (targetsWithin g w h current ty r moore) with
  | none => none
  | some closest =>
    if manhattan_distance current closest.pos = 1 then none
    else calculate_best_move_towards g w h current closest.pos moore

/-- Embedding of `get_random_empty_neighbor` (agents_utils.py lines 72-87):
a uniformly random choice among the currently-empty immediate neighbor
cells, `none` when none exists; the random draw is the index argument. -/
def get_random_empty_neighbor (g : AgGrid) (w h : ℤ) (current : Pos)
    (moore : Bool) (idx : ℕ) : Option Pos :=
  let empty := emptyNeighborCells g w h current moore
  if empty.isEmpty then none else empty.get? (idx % empty.length)

/-- Claim C7: the movement heuristic returns nothing when no agent of the
target variant is within the search radius (center cell excluded, as the
query excludes it), nothing when the Manhattan-closest found target is at
Manhattan distance 1, and otherwise a currently-empty immediate neighbor
cell minimizing Manhattan distance to the closest target's position — or
nothing when no immediate neighbor cell is empty. -/
theorem C7_find_and_move (g : AgGrid) (w h : ℤ) (current : Pos) (ty : AgTy)
    (r : ℕ) (moore : Bool) :
    (targetsWithin g w h current ty r moore = [] →
      find_and_move_towards_agent_type g w h current ty r moore = none) ∧
    (∀ closest,
      pyMinBy (fun a => manhattan_distance current a.pos)
          (targetsWithin g w h current ty r moore) = some closest →
      closest ∈ targetsWithin g w h current ty r moore ∧
      (∀ t ∈ targetsWithin g w h current ty r moore,
        manhattan_distance current closest.pos ≤ manhattan_distance current t.pos) ∧
      (manhattan_distance current closest.pos = 1 →
        find_and_move_towards_agent_type g w h current ty r moore = none) ∧
      (manhattan_distance current closest.pos ≠ 1 →
        (emptyNeighborCells g w h current moore = [] →
          find_and_move_towards_agent_type g w h current ty r moore = none) ∧
        (emptyNeighborCells g w h current moore ≠ [] →
          ∃ q, find_and_move_towards_agent_type g w h current ty r moore = some q ∧
            q ∈ emptyNeighborCells g w h current moore ∧
            ∀ q2 ∈ emptyNeighborCells g w h current moore,
              manhattan_distance q closest.pos ≤ manhattan_distance q2 closest.pos))) := by
  constructor
  · intro hempty
    unfold find_and_move_towards_agent_type
    rw [hempty]
    rfl
  · intro closest hmin
    have hred : find_and_move_towards_agent_type g w h current ty r moore =
        if manhattan_distance current closest.pos = 1 then none
        else calculate_best_move_towards g w h current closest.pos moore := by
      unfold find_and_move_towards_agent_type
      rw [hmin]
    refine ⟨pyMinBy_mem hmin, pyMinBy_min hmin, ?_, ?_⟩
    · intro h1
      rw [hred, if_pos h1]
    · intro hne
      rw [hred, if_neg hne]
      constructor
      · intro hempty
        unfold calculate_best_move_towards
        rw [hempty]
        rfl
      · intro hnonempty
        have hsome : pyMinBy (fun q => manhattan_distance q closest.pos)
            (emptyNeighborCells g w h current moore) ≠ none :=
          fun hn => hnonempty ((pyMinBy_eq_none_iff _ _).mp hn)
        obtain ⟨q, hq⟩ := Option.ne_none_iff_exists'.mp hsome
        refine ⟨q, ?_, pyMinBy_mem hq, pyMinBy_min hq⟩
        unfold calculate_best_move_towards
        exact hq

/-- Claim C7, witness: the heuristic applied on a concrete empty grid (no
target found) and on a concrete grid with a tumor cell adjacent at Manhattan
distance 1 (already adjacent, no move). -/
theorem C7_find_and_move_witness :
    find_and_move_towards_agent_type [] 10 10 (0, 0) .tumorCell 3 true = none ∧
    find_and_move_towards_agent_type [⟨.tumorCell, (1, 0), 0, .active⟩] 10 10 (0, 0)
      .tumorCell 3 true = none := by
  constructor
  · exact (C7_find_and_move [] 10 10 (0, 0) .tumorCell 3 true).1 rfl
  · exact (((C7_find_and_move [⟨.tumorCell, (1, 0), 0, .active⟩] 10 10 (0, 0)
      .tumorCell 3 true).2 ⟨.tumorCell, (1, 0), 0, .active⟩ (by decide)).2.2.1) (by decide)

/-! ### ICI agents (src/agents/ICI.py) -/

/-- Embedding of `ICI._enhance_T_cells` (ICI.py lines 26-37): every T cell
in the Moore neighborhood of the ICI (center cell included) whose state is
exhausted gets its exhaustion reduced by 0.1, clamped at 0; the state field
is never touched.  All other agents are unchanged. -/
def ICI_enhance_T_cells (g : AgGrid) (w h : ℤ) (pos : Pos) : AgGrid :=
  g.map (fun a =>
    if a.ty = .tCell ∧ a.pos ∈ (pos :: neighborhoodCells w h pos 1 true) ∧
        a.state = .exhausted then
      { a with exhaustion := TC.clampBelow (a.exhaustion - 1/10) }
    else a)

/-- Embedding of `ICI.step` (ICI.py lines 19-24): the step body only calls
`_enhance_T_cells`; the `move` method (lines 39-55) is never invoked, so the
agent's position is returned unchanged. -/
def ICI_step (g : AgGrid) (w h : ℤ) (pos : Pos) : AgGrid × Pos :=
  (ICI_enhance_T_cells g w h pos, pos)

/-- Embedding of `ICI.move` (ICI.py lines 39-55): seek-and-step toward the
nearest T cell within the search radius (3), falling back to a uniformly
random empty neighbor cell, staying put when neither yields a position. -/
def ICI_move (g : AgGrid) (w h : ℤ) (pos : Pos) (idx : ℕ) : Pos :=
  match find_and_move_towards_agent_type g w h pos .tCell 3 true with
  | some next => next
  | none =>
    match get_random_empty_neighbor g w h pos true idx with
    | some q => q
    | none => pos

/-- Claim C6 (amended): `ICI.step` never moves the agent — it only runs the
exhaustion-reduction scan, leaving every agent's position unchanged; the
`move` method implementing seek-toward-TCell with random fallback exists but
is never invoked by `step`. -/
theorem C6_ICI_step_never_moves :
    (∀ (g : AgGrid) (w h : ℤ) (pos : Pos), (ICI_step g w h pos).2 = pos) ∧
    (∀ (g : AgGrid) (w h : ℤ) (pos : Pos),
      ((ICI_step g w h pos).1).map Ag.pos = g.map Ag.pos) ∧
    (∀ (g : AgGrid) (w h : ℤ) (pos : Pos) (idx : ℕ) (next : Pos),
      find_and_move_towards_agent_type g w h pos .tCell 3 true = some next →
      ICI_move g w h pos idx = next) := by
  refine ⟨fun _ _ _ _ => rfl, ?_, ?_⟩
  · intro g w h pos
    unfold ICI_step ICI_enhance_T_cells
    rw [List.map_map]
    apply List.map_congr_left
    intro a _
    simp only [Function.comp_apply]
    split <;> rfl
  · intro g w h pos idx next hfind
    unfold ICI_move
    rw [hfind]

/-- Claim C6, witness: the amended statement applied on a concrete grid with
one T cell in seek range. -/
theorem C6_ICI_step_never_moves_witness :
    (ICI_step [⟨.tCell, (5, 5), 0, .active⟩] 20 20 (2, 5)).2 = (2, 5) ∧
    ICI_move [⟨.tCell, (5, 5), 0, .active⟩] 20 20 (2, 5) 0 = (3, 5) := by
  constructor
  · exact C6_ICI_step_never_moves.1 _ 20 20 _
  · exact C6_ICI_step_never_moves.2.2 _ 20 20 _ 0 _ (by decide)

/-- Claim C6, counterexample: on a concrete state with a T cell within the
search radius, `ICI.step` leaves the ICI at its cell although the
seek-and-step heuristic (with fallback) would produce a different cell — so
the step does not perform the claimed movement. -/
theorem C6_counterexample :
    (ICI_step [⟨.tCell, (5, 5), 0, .active⟩] 20 20 (2, 5)).2 = (2, 5) ∧
    ICI_move [⟨.tCell, (5, 5), 0, .active⟩] 20 20 (2, 5) 0 ≠ (2, 5) := by
  exact ⟨rfl, by decide⟩

/-! ### Tumor cells (src/agents/tumor_cell.py) -/

/-- Embedding of `TumorCell.proliferate` (tumor_cell.py lines 27-44): while
active, compute the empty Moore-neighbor cells of the parent; if any exists
and the random draw is below the literal probability 0.05 hardcoded in the
source (`self.model.random.random() < 0.05` — the model's configured
`p_TumorCell_add` is stored by `RCCModel.__init__` but never read here),
spawn a new tumor cell at a uniformly random empty neighbor cell.  The
result is the spawn position; the parent's own position is not part of the
result because the source never moves the parent. -/
def proliferate (g : AgGrid) (w h : ℤ) (pos : Pos) (draw : ℚ) (idx : ℕ) : Option Pos :=
  let empty := emptyNeighborCells g w h pos true
  if empty ≠ [] ∧ draw < 1/20 then empty.get? (idx % empty.length) else none

/-- Definition following claim C5's words, for comparison: the identical
spawn rule but gated by the configured probability `p_TumorCell_add`. -/
def proliferate_claimed (p : ℚ) (g : AgGrid) (w h : ℤ) (pos : Pos)
    (draw : ℚ) (idx : ℕ) : Option Pos :=
  let empty := emptyNeighborCells g w h pos true
  if empty ≠ [] ∧ draw < p then empty.get? (idx % empty.length) else none

/-- Claim C5 (code bug): with `p_TumorCell_add` configured to 0.1 and a
random draw of 0.07 (below the configured probability, so the claim demands
a spawn) the code spawns nothing, because its gate compares the draw against
the hardcoded 0.05 instead of the stored parameter; the parameterized rule
the claim describes would spawn at the first empty neighbor cell. -/
theorem C5_hardcoded_probability :
    proliferate [⟨.tumorCell, (5, 5), 0, .active⟩] 10 10 (5, 5) (7/100) 0 = none ∧
    (7 : ℚ)/100 < 1/10 ∧
    proliferate_claimed (1/10) [⟨.tumorCell, (5, 5), 0, .active⟩] 10 10 (5, 5)
      (7/100) 0 = some (4, 4) := by
  have hcode : ¬ ((7 : ℚ)/100 < 1/20) := by norm_num
  have hclaim : (7 : ℚ)/100 < 1/10 := by norm_num
  refine ⟨?_, hclaim, ?_⟩
  · unfold proliferate
    exact if_neg (fun hand => hcode hand.2)
  · unfold proliferate_claimed
    rw [if_pos ⟨by decide, hclaim⟩]
    decide

/-! ### Model state, survival oracle and data collection (src/model.py) -/

/-- Model state relevant to the survival oracle and the data collector: the
survival-tracking counter `last_tcell_count_step` (`none` when not
tracking), the step counter, the live agent set and the grid extents. -/
structure MState where
  last_tcell_count_step : Option ℤ
  steps : ℤ
  agents : AgGrid
  width : ℤ
  height : ℤ
deriving DecidableEq, Repr

def nActiveTCells (g : AgGrid) : ℕ :=
  (g.filter (fun a => a.ty == .tCell && a.state == .active)).length

def nTCells (g : AgGrid) : ℕ := (g.filter (fun a => a.ty == .tCell)).length

def nExhaustedTCells (g : AgGrid) : ℕ :=
  (g.filter (fun a => a.ty == .tCell && a.state == .exhausted)).length

def nTumorCells (g : AgGrid) : ℕ := (g.filter (fun a => a.ty == .tumorCell)).length

def nTRegs (g : AgGrid) : ℕ := (g.filter (fun a => a.ty == .tReg)).length

def nAndrogenAgents (g : AgGrid) : ℕ := (g.filter (fun a => a.ty == .androgen)).length

/-- Embedding of `RCCModel.get_tumor_coverage_percentage` (model.py lines
237-243): tumor-cell count over total cells, times 100. -/
def get_tumor_coverage_percentage (s : MState) : ℚ :=
  (nTumorCells s.agents : ℚ) / ((s.width : ℚ) * (s.height : ℚ)) * 100

/-- Update of the survival-tracking counter performed by
`RCCModel.is_patient_alive` (model.py lines 252-256).  The source sets the
tracker to the CURRENT step when active T cells exist and the tracker was
unset (`if n_tcells and self.last_tcell_count_step is None`), clears it
when active T cells exist and it was set (`elif n_tcells > 0`), and leaves
it untouched when the active count is 0. -/
def tracker_update (tr : Option ℤ) (steps : ℤ) (n : ℕ) : Option ℤ :=
  if n ≠ 0 ∧ tr = none then some steps
  else if 0 < n then none
  else tr

/-- Embedding of `RCCModel.is_patient_alive` (model.py lines 245-261),
including its in-place update of the survival-tracking counter: after the
tracker update, the patient is reported dead when the tracker is set to a
step more than 100 steps ago, and otherwise alive iff tumor coverage is
below the threshold (the coverage reads no field the update touched).
Returns the boolean result together with the mutated state. -/
def is_patient_alive (death_threshold : ℚ) (s : MState) : Bool × MState :=
  let tr := tracker_update s.last_tcell_count_step s.steps (nActiveTCells s.agents)
  (if tr ≠ none ∧ s.steps - tr.getD 0 > 100 then false
   else decide (get_tumor_coverage_percentage s < death_threshold),
   { s with last_tcell_count_step := tr })

/-- Definition following claim C1's words, for comparison: the
survival-tracking counter as the spec describes it — set to the current
step the moment the active T cell count drops to 0 (when not already
tracking), and reset to not-tracking the moment any active T cell exists
again. -/
def spec_tracker_update (tr : Option ℤ) (steps : ℤ) (nActive : ℕ) : Option ℤ :=
  if nActive = 0 then (if tr = none then some steps else tr) else none

/-- Definition following claim C1's words, for comparison: the patient is
dead exactly when the tracked first-zero step is more than 100 steps in the
past or tumor coverage reached the threshold. -/
def spec_patient_dead (tr : Option ℤ) (steps : ℤ) (coverage threshold : ℚ) : Prop :=
  (∃ t0, tr = some t0 ∧ steps - t0 > 100) ∨ threshold ≤ coverage

/-- Claim C1 (code bug): the source updates the survival tracker only when
active T cells EXIST (`if n_tcells ...` where the claim's rule requires
`if n_tcells == 0 ...`), so along a run whose active T cell count is 0 at
every step the tracker never leaves `none` and the sustained-absence death
rule never fires.  First conjunct: with no agents (active count 0) the code
never changes the tracker, whatever its value; so from the `None` set at
construction it is still `None` at step 101, where the code reports the
patient alive (second conjunct, coverage 0 < 40).  The claim's own tracker
(third conjunct) starts tracking at step 0, and its death rule (fourth
conjunct) declares the patient dead at step 101. -/
theorem C1_survival_tracker_bug :
    (∀ (tr : Option ℤ) (steps : ℤ),
      (is_patient_alive 40 ⟨tr, steps, [], 10, 10⟩).2.last_tcell_count_step = tr) ∧
    (is_patient_alive 40 ⟨none, 101, [], 10, 10⟩).1 = true ∧
    spec_tracker_update none 0 0 = some 0 ∧
    spec_patient_dead (some 0) 101 0 40 := by
  refine ⟨?_, ?_, rfl, Or.inl ⟨0, rfl, by norm_num⟩⟩
  · intro tr steps
    show tracker_update tr steps (nActiveTCells []) = tr
    unfold tracker_update nActiveTCells
    simp
  · have htr : tracker_update none 101 (nActiveTCells []) = none := by
      unfold tracker_update nActiveTCells
      simp
    simp only [is_patient_alive, htr, ne_eq, not_true_eq_false, false_and, if_false,
      decide_eq_true_eq]
    unfold get_tumor_coverage_percentage nTumorCells
    norm_num

/-- Mean T cell exhaustion as the `Average T Cell Exhaustion` reporter
computes it (model.py line 85): sum over T cells divided by `max 1 count`. -/
def avgTCellExhaustion (g : AgGrid) : ℚ :=
  ((g.filter (fun a => a.ty == .tCell)).map Ag.exhaustion).sum / (max 1 (nTCells g) : ℕ)

/-- Per-step aggregate metrics row produced by the DataCollector's model
reporters (model.py lines 78-89). -/
structure Metrics where
  tCellCount : ℕ
  activeTCellCount : ℕ
  exhaustedTCellCount : ℕ
  tumorCellCount : ℕ
  tRegCount : ℕ
  androgenCount : ℕ
  avgExhaustion : ℚ
  dead : Bool
  tumorDefeated : Bool
  step : ℤ
deriving DecidableEq, Repr

/-- Embedding of `DataCollector.collect` restricted to the model reporters
(model.py lines 77-98): every reporter is a pure read of the model state
except `Dead`, which calls `is_patient_alive` and thereby updates the
survival-tracking counter in place.  The result is the metrics row together
with the model state after collection. -/
def collect (s : MState) : Metrics × MState :=
  let r := is_patient_alive 40 s
  (⟨nTCells s.agents, nActiveTCells s.agents, nExhaustedTCells s.agents,
    nTumorCells s.agents, nTRegs s.agents, nAndrogenAgents s.agents,
    avgTCellExhaustion s.agents, !r.1, nTumorCells s.agents == 0, s.steps⟩, r.2)

/-- Claim C8 (amended): collecting the metrics leaves every component of the
model state unchanged EXCEPT the survival-tracking counter, which the `Dead`
reporter's call of `is_patient_alive` may set to the current step or clear. -/
theorem C8_collect_frame (s : MState) :
    (collect s).2.steps = s.steps ∧
    (collect s).2.agents = s.agents ∧
    (collect s).2.width = s.width ∧
    (collect s).2.height = s.height ∧
    (collect s).2 =
      { s with last_tcell_count_step := (collect s).2.last_tcell_count_step } := by
  exact ⟨rfl, rfl, rfl, rfl, rfl⟩

/-- Claim C8, counterexample: on a concrete state with one active T cell and
an unset survival-tracking counter, a metrics collection sets the counter to
the current step — the counter differs before and after the collection, so
collection is not read-only. -/
theorem C8_counterexample :
    (collect ⟨none, 7, [⟨.tCell, (0, 0), 0, .active⟩], 10, 10⟩).2.last_tcell_count_step
      = some 7 ∧
    (⟨none, 7, [⟨.tCell, (0, 0), 0, .active⟩], 10, 10⟩ : MState).last_tcell_count_step
      = none := by
  refine ⟨?_, rfl⟩
  show tracker_update none 7 (nActiveTCells [⟨.tCell, (0, 0), 0, .active⟩]) = some 7
  unfold tracker_update nActiveTCells
  simp

/-! ### TReg recruitment (src/model.py `_add_TReg`, lines 156-187) -/

/-- Mean T cell exhaustion used by the recruitment rule (model.py lines
160-163): mean over ALL T cells (the `TCells_active` list is a plain copy),
0 when no T cell exists. -/
def mean_exhaustion (es : List ℚ) : ℚ := if es = [] then 0 else es.sum / es.length

/-- Recruitment quota (model.py lines 165-167): `10 - int(mean * 10)`,
floored at 0. -/
def tregQuota (m : ℚ) : ℕ := (10 - pyInt (m * 10)).toNat

/-- Recruitment cap (model.py line 168): the T cell count for female
patients, `len(TCells) // 1.3` for male patients (float floor-division in
the source, exact rational floor here; the two can differ only at isolated
counts where binary rounding of the quotient crosses an integer). -/
def max_treg (sex : String) (nTCellCount : ℕ) : ℚ :=
  if sex = "female" then nTCellCount else ⌊(nTCellCount : ℚ) / (13/10)⌋

/-- Embedding of `RCCModel._add_TReg` (model.py lines 156-187) as the TReg
count after recruitment.  The exhaustion list of all T cells, the sex and
the pre-recruitment TReg count are read from the model.  The cap check
zeroes the quota BEFORE the spawn loop when the pre-recruitment TReg count
already exceeds the cap; spawns inside the loop are not re-checked against
the cap.  Each of the quota slots draws `random.random()` and compares it
against a spawn probability that the source floors at 0.01 — the
probability is therefore always positive, so both outcomes of every draw
are possible, and the boolean list carries those per-slot outcomes. -/
def add_TReg_count (es : List ℚ) (sex : String) (nTRegCount : ℕ)
    (coins : List Bool) : ℕ :=
  nTRegCount +
    (coins.take (if (nTRegCount : ℚ) > max_treg sex es.length then 0
      else tregQuota (mean_exhaustion es))).countP id

theorem tregQuota_le_ten (m : ℚ) (hm : 0 ≤ m) : tregQuota m ≤ 10 := by
  unfold tregQuota
  have h1 : 0 ≤ pyInt (m * 10) := by
    rw [pyInt_eq_floor_of_nonneg _ (by positivity)]
    positivity
  omega

theorem mean_exhaustion_nonneg (es : List ℚ) (hes : ∀ e ∈ es, 0 ≤ e) :
    0 ≤ mean_exhaustion es := by
  unfold mean_exhaustion
  split
  · exact le_refl 0
  · have hsum : 0 ≤ es.sum := List.sum_nonneg hes
    positivity

theorem add_TReg_count_le (es : List ℚ) (sex : String) (n : ℕ) (coins : List Bool)
    (hm : 0 ≤ mean_exhaustion es) :
    add_TReg_count es sex n coins ≤ n + 10 := by
  unfold add_TReg_count
  have hcount : ∀ q : ℕ, (coins.take q).countP id ≤ q := fun q =>
    le_trans (List.countP_le_length _) (List.length_take_le _ _)
  split
  · have := hcount 0
    omega
  · have h1 := hcount (tregQuota (mean_exhaustion es))
    have h2 := tregQuota_le_ten _ hm
    omega

/-- Claim C3 (amended): a recruitment step adds at most 10 TRegs, adds none
at all when the pre-recruitment TReg count already exceeds the cap (T cell
count for female, floor of T cell count / 1.3 for male), and therefore
leaves the TReg count at most cap + 10 whenever it was within the cap —
the cap bounds entry to the spawn loop, not the resulting population. -/
theorem C3_treg_cap (es : List ℚ) (sex : String) (n : ℕ) (coins : List Bool)
    (hes : ∀ e ∈ es, 0 ≤ e) :
    add_TReg_count es sex n coins ≤ n + 10 ∧
    ((n : ℚ) > max_treg sex es.length → add_TReg_count es sex n coins = n) ∧
    ((n : ℚ) ≤ max_treg sex es.length →
      (add_TReg_count es sex n coins : ℚ) ≤ max_treg sex es.length + 10) := by
  have hm := mean_exhaustion_nonneg es hes
  refine ⟨add_TReg_count_le es sex n coins hm, ?_, ?_⟩
  · intro hgt
    unfold add_TReg_count
    rw [if_pos hgt]
    simp
  · intro hle
    have hq := add_TReg_count_le es sex n coins hm
    calc (add_TReg_count es sex n coins : ℚ) ≤ ((n + 10 : ℕ) : ℚ) := by
          exact_mod_cast hq
      _ ≤ max_treg sex es.length + 10 := by push_cast; linarith

/-- Claim C3, witness: the amended statement applied at a concrete
recruitment step (one T cell at exhaustion 0, no TRegs yet, male). -/
theorem C3_treg_cap_witness :
    add_TReg_count [0] "male" 0 [] ≤ 0 + 10 ∧
    ((0 : ℚ) ≤ max_treg "male" 1 →
      (add_TReg_count [0] "male" 0 [] : ℚ) ≤ max_treg "male" 1 + 10) := by
  have h := C3_treg_cap [0] "male" 0 [] (by intro e he; simp_all)
  exact ⟨h.1, fun hle => h.2.2 (by simpa using hle)⟩

/-- Claim C3, counterexample: a female model with 5 T cells all at
exhaustion 0 and exactly 5 TRegs (the cap: ceil(5) = 5).  The pre-loop cap
check passes (5 > 5 is false), the quota is 10 (mean exhaustion 0), and
when all 10 spawn draws succeed (each has probability at least the 0.01
floor, so this outcome is possible) the post-recruitment TReg count is 15,
exceeding the claimed bound ceil(TCell count) = 5. -/
theorem C3_counterexample :
    add_TReg_count (List.replicate 5 0) "female" 5 (List.replicate 10 true) = 15 ∧
    ¬ ((add_TReg_count (List.replicate 5 0) "female" 5 (List.replicate 10 true) : ℤ)
        ≤ ⌈(5 : ℚ)⌉) := by
  have hmean : mean_exhaustion (List.replicate 5 0) = 0 := by
    unfold mean_exhaustion
    simp
  have hcap : max_treg "female" (List.replicate (5 : ℕ) (0 : ℚ)).length = 5 := by
    unfold max_treg
    simp
  have hq : tregQuota 0 = 10 := by
    unfold tregQuota pyInt
    norm_num
    rfl
  have hval : add_TReg_count (List.replicate 5 0) "female" 5 (List.replicate 10 true) = 15 := by
    unfold add_TReg_count
    rw [hcap, if_neg (by norm_num), hmean, hq]
    decide
  refine ⟨hval, ?_⟩
  rw [hval]
  intro hcontra
  have hceil : ⌈(5 : ℚ)⌉ = 5 := by norm_num
  omega

/-! ### Model construction (src/model.py `RCCModel.__init__`, lines 11-76) -/

/-- Constructor configuration of `RCCModel` (model.py lines 11-28): grid
extents, sex, initial agent counts, and the per-mechanism tunables. -/
structure Config where
  width : ℤ
  height : ℤ
  sex : String
  nICI : ℤ
  nTCell : ℤ
  nTReg : ℤ
  nAndrogens : ℤ
  nTumorCells : ℤ
  p_TReg_add : ℚ
  TCell_exhaustion_Tumor : ℚ
  TCell_exhaustion_TReg : ℚ
  TCell_exhaustion_Androgens : ℚ
  TCell_activation_ICI : ℚ
  p_TumorCell_add : ℚ
  ICI_exhaustion : ℚ
deriving DecidableEq, Repr

/-- Number of TReg agents created at construction (model.py line 59):
`nTReg` for male, `int(nTReg + nTReg * 0.1)` for female. -/
def tregInitCount (sex : String) (nTReg : ℤ) : ℤ :=
  if sex = "male" then nTReg else pyInt ((nTReg : ℚ) + (nTReg : ℚ) * (1/10))

/-- Number of Androgen agents created at construction (model.py line 64):
`nAndrogens + 4` for male, `nAndrogens` for female. -/
def androgenInitCount (sex : String) (nAndrogens : ℤ) : ℤ :=
  if sex = "male" then nAndrogens + 4 else nAndrogens

/-- Python `random.randrange(n)`: raises `ValueError` on an empty range
(n <= 0); the drawn value itself is irrelevant to the construction claims. -/
def randrange (n : ℤ) : Except String Unit :=
  if n ≤ 0 then .error "empty range for randrange" else .ok ()

/-- One random grid position (`randrange(width)` then `randrange(height)`),
as drawn by every agent placement in `__init__`. -/
def drawPos (w h : ℤ) : Except String Unit := do
  randrange w
  randrange h

/-- Python `for _ in range(k)` running `body` each iteration (an empty loop
when k <= 0 — a negative count is silently accepted). -/
def forRange (k : ℤ) (body : Except String Unit) : Except String Unit :=
  (List.range k.toNat).foldlM (fun _ _ => body) ()

/-- Embedding of the construction behaviour of `RCCModel.__init__` (model.py
lines 11-76) relevant to claims C9 and C10: place `nTCell` T cells,
`tregInitCount` TRegs, `androgenInitCount` androgens and `nICI` ICIs at
random positions, then `_create_tumor_mass`, whose first position draw
happens unconditionally (lines 142-143) before its `nTumorCells` loop (whose
own draws, `random.choice` on a 3-element list, never raise).  No parameter
is validated or clamped anywhere in the source: the configuration is
returned unchanged on success, and the only raise is the `ValueError` from
`randrange` on a non-positive grid dimension. -/
def RCCModel_init (cfg : Config) : Except String Config := do
  forRange cfg.nTCell (drawPos cfg.width cfg.height)
  forRange (tregInitCount cfg.sex cfg.nTReg) (drawPos cfg.width cfg.height)
  forRange (androgenInitCount cfg.sex cfg.nAndrogens) (drawPos cfg.width cfg.height)
  forRange cfg.nICI (drawPos cfg.width cfg.height)
  drawPos cfg.width cfg.height
  pure cfg

theorem foldlM_const_ok (l : List ℕ) :
    l.foldlM (fun _ _ => (Except.ok () : Except String Unit)) () = Except.ok () := by
  induction l with
  | nil => rfl
  | cons x xs ih => simpa [List.foldlM_cons] using ih

theorem forRange_ok (k : ℤ) : forRange k (Except.ok ()) = Except.ok () :=
  foldlM_const_ok _

theorem foldlM_const_cases (l : List ℕ) (body : Except String Unit) :
    l.foldlM (fun _ _ => body) () = Except.ok () ∨
      l.foldlM (fun _ _ => body) () = body := by
  induction l with
  | nil => exact Or.inl rfl
  | cons x xs ih =>
    cases body with
    | ok v =>
      cases v
      rcases ih with h | h
      · exact Or.inl (by simpa [List.foldlM_cons] using h)
      · exact Or.inl (by simpa [List.foldlM_cons] using h)
    | error e => exact Or.inr rfl

theorem forRange_cases (k : ℤ) (body : Except String Unit) :
    forRange k body = Except.ok () ∨ forRange k body = body :=
  foldlM_const_cases _ body

/-- Claim C9 (amended): `RCCModel.__init__` performs no explicit parameter
validation.  Construction succeeds, returning every supplied parameter
unchanged (so out-of-range probabilities are accepted, never clamped, and
non-positive agent counts silently create no agents), whenever both grid
dimensions are positive; it raises (a `ValueError` propagating from
`random.randrange` during agent placement, not a validation check) exactly
when a grid dimension is non-positive. -/
theorem C9_construction_no_validation (cfg : Config) :
    (0 < cfg.width ∧ 0 < cfg.height → RCCModel_init cfg = .ok cfg) ∧
    (¬ (0 < cfg.width ∧ 0 < cfg.height) →
      RCCModel_init cfg = .error "empty range for randrange") := by
  constructor
  · rintro ⟨hw, hh⟩
    have h1 : randrange cfg.width = .ok () := by
      unfold randrange
      rw [if_neg (by omega)]
    have h2 : randrange cfg.height = .ok () := by
      unfold randrange
      rw [if_neg (by omega)]
    have hdp : drawPos cfg.width cfg.height = .ok () := by
      unfold drawPos
      rw [h1, h2]
      rfl
    unfold RCCModel_init
    rw [hdp, forRange_ok, forRange_ok, forRange_ok, forRange_ok]
    rfl
  · intro hdim
    have hdp : drawPos cfg.width cfg.height = .error "empty range for randrange" := by
      unfold drawPos randrange
      by_cases hw : cfg.width ≤ 0
      · rw [if_pos hw]
        rfl
      · rw [if_neg hw, if_pos (by omega)]
        rfl
    unfold RCCModel_init
    rcases forRange_cases cfg.nTCell (drawPos cfg.width cfg.height) with h1 | h1 <;>
      rcases forRange_cases (tregInitCount cfg.sex cfg.nTReg)
        (drawPos cfg.width cfg.height) with h2 | h2 <;>
      rcases forRange_cases (androgenInitCount cfg.sex cfg.nAndrogens)
        (drawPos cfg.width cfg.height) with h3 | h3 <;>
      rcases forRange_cases cfg.nICI (drawPos cfg.width cfg.height) with h4 | h4 <;>
      rw [hdp] at h1 h2 h3 h4 ⊢ <;>
      rw [h1, h2, h3, h4] <;>
      rfl

/-- Claim C9, witness: the amended statement applied at a fully valid
concrete configuration (construction succeeds) and at one with grid width 0
(construction raises). -/
theorem C9_construction_no_validation_witness :
    RCCModel_init ⟨10, 10, "male", 2, 373, 0, 371, 394, 1/4, 1/25, 1/6, 1/6, 4/25, 1/30, 1/2⟩
      = .ok ⟨10, 10, "male", 2, 373, 0, 371, 394, 1/4, 1/25, 1/6, 1/6, 4/25, 1/30, 1/2⟩ ∧
    RCCModel_init ⟨0, 10, "male", 2, 373, 0, 371, 394, 1/4, 1/25, 1/6, 1/6, 4/25, 1/30, 1/2⟩
      = .error "empty range for randrange" := by
  exact ⟨(C9_construction_no_validation _).1 (by norm_num),
    (C9_construction_no_validation _).2 (by norm_num)⟩

/-- Claim C9, counterexample: a configuration with a negative agent count
(`nTCell = -7`, a non-positive count) and a probability parameter outside
[0,1] (`p_TReg_add = 1.5`) on a valid 10x10 grid.  Construction does not
raise: it succeeds and stores the out-of-range probability unchanged, so
the claimed fail-fast validation does not exist. -/
theorem C9_counterexample :
    RCCModel_init ⟨10, 10, "male", 0, -7, 0, 0, 5, 3/2, 1/25, 1/6, 1/6, 4/25, 1/30, 1/2⟩
      = .ok ⟨10, 10, "male", 0, -7, 0, 0, 5, 3/2, 1/25, 1/6, 1/6, 4/25, 1/30, 1/2⟩ := by
  rfl

/-- Claim C10: exactly `nTReg` TReg agents are created for male
configurations but `floor(nTReg + nTReg * 0.1)` (= `11 * nTReg / 10`
rounded down) for female ones, and exactly `nAndrogens + 4` Androgen agents
are created for male configurations but `nAndrogens` for female ones — so
the created numbers do not always equal the configured counts (last
conjunct: a male run with the default `nAndrogens = 371` creates 375). -/
theorem C10_initial_agent_counts :
    (∀ n : ℤ, tregInitCount "male" n = n) ∧
    (∀ n : ℕ, tregInitCount "female" (n : ℤ) = ((11 * n / 10 : ℕ) : ℤ)) ∧
    (∀ n : ℤ, androgenInitCount "male" n = n + 4) ∧
    (∀ n : ℤ, androgenInitCount "female" n = n) ∧
    androgenInitCount "male" 371 ≠ 371 := by
  refine ⟨fun n => rfl, ?_, fun n => rfl, fun n => rfl, by decide⟩
  intro n
  unfold tregInitCount
  rw [if_neg (by decide)]
  have h1 : (((n : ℤ) : ℚ)) + (((n : ℤ) : ℚ)) * (1/10) =
      ((11 * n : ℕ) : ℚ) / ((10 : ℕ) : ℚ) := by
    push_cast
    ring
  rw [h1, pyInt_eq_floor_of_nonneg _ (by positivity), Rat.floor_natCast_div_natCast]
  exact (Int.natCast_div _ _).symm
